import Mathlib

/-
Verification development for the bearer-token authentication core of the
nats-io broker (src/server/bearer_auth.go).

The Go code is shallowly embedded as executable Lean definitions:

* JSON-decoded dynamic Go values (`interface\x7b\x7d` after encoding/json) become the
  inductive `GoVal`; Go maps become association lists with Go-map lookup/insert.
* `BearerAuth.Check` becomes the pure function `Check`.  Its interactions with
  the outside world are made explicit: the parsed token is an input (the
  third-party compact-token framing is abstracted as an `Option JwtToken`),
  the signature-verification primitive is a boolean-valued field of the token,
  `c.(*client)` becomes the `isClient` flag, `time.Now().Unix()` becomes the
  `now` argument, and the side effects on the connection (RegisterUser,
  setExpiration) are returned as lists in `CheckResult`.
* The claims validation that the pinned dependency dgrijalva/jwt-go v3.2.0
  performs inside `jwt.Parse` (parser.go: keyFunc lookup, then
  `MapClaims.Valid()` from claims.go, then signature verification) is embedded
  faithfully, since `Check` observes its failures as a non-nil parse error.
* Go float64 numbers are modelled as rationals; the only operations the code
  performs on them are the int64 conversion (truncation toward zero) and
  equality/ordering of the converted values, which the rational model captures
  for every value a float64 can hold.
-/

namespace BearerAuthSpec

/-- Dynamic Go value as produced by encoding/json decoding into
`interface\x7b\x7d` (and, for `vNum`, by a decoder with UseNumber, which the
source's type switch handles): numbers, strings, booleans, objects, arrays and
null.  `vFloat` carries the numeric value of a float64 as a rational;
`vNum` carries a json.Number, i.e. the undecoded literal text. -/
inductive GoVal where
  | vFloat (q : ℚ)
  | vNum (s : String)
  | vStr (s : String)
  | vBool (b : Bool)
  | vObj (fields : List (String × GoVal))
  | vArr (elems : List GoVal)
  | vNull

/-- Go map read `m[k]`: association-list lookup (keys are unique in a Go map). -/
def alookup {α : Type} : List (String × α) → String → Option α
  | [], _ => none
  | (k, v) :: rest, key => if k = key then some v else alookup rest key

/-- Go map write `m[k] = v`: replace the binding if present, else add it. -/
def aset {α : Type} : List (String × α) → String → α → List (String × α)
  | [], key, v => [(key, v)]
  | (k, w) :: rest, key, v =>
      if k = key then (key, v) :: rest else (k, w) :: aset rest key v

/-- An rsa.PublicKey, abstracted to an opaque identity: the code only stores
keys, compares them with nil and hands them to the signature primitive. -/
structure RSAPublicKey where
  keyId : Nat
deriving DecidableEq, Repr

/-- Outcome of the key-resolution callback passed to jwt.Parse
(src/server/bearer_auth.go lines 54 to 74).  `panicked` is the run in which the
callback dereferences the nil `kid` pointer (see `keyFunc`). -/
inductive KeyFuncResult where
  | ok (pk : RSAPublicKey)
  | err
  | panicked
deriving DecidableEq, Repr

/-- A compact token after the third-party structural parse
(jwt-go ParseUnverified): decoded header object, decoded claims object,
whether the declared signing method is of Go type *jwt.SigningMethodRSA
(the RS256/RS384/RS512 family; the PSS and all non-RSA methods are not), and
the signature-verification primitive for the token, abstracted as a predicate
on the candidate public key. -/
structure JwtToken where
  header : List (String × GoVal)
  claims : List (String × GoVal)
  methodIsRSA : Bool
  sigValid : RSAPublicKey → Bool

/-- The key-resolution callback of Check (src/server/bearer_auth.go lines
54 to 74), paired with a flag recording whether the key store was consulted.
The Go code sets `kid` only when the header field "kid" exists and is a
string; it looks `*kid` up in the store only when `kid != nil`; and when no
key was resolved it builds the error message with `*kid` - which, when `kid`
is nil (header without a string "kid"), dereferences a nil pointer and
panics before any store access. -/
def keyFunc (jwks : List (String × RSAPublicKey)) (tok : JwtToken) :
    KeyFuncResult × Bool :=
  if tok.methodIsRSA = false then (.err, false)
  else
    match alookup tok.header "kid" with
    | some (.vStr k) =>
        match alookup jwks k with
        | some pk => (.ok pk, true)
        | none => (.err, true)
    | _ => (.panicked, false)

/-- Go conversion int64(f) for a float64 f: truncation toward zero. -/
def floatToInt64 (q : ℚ) : Int :=
  Int.tdiv q.num (q.den : Int)

/-- Digit accumulator for base-10 integer parsing. -/
def decDigitsAux : List Char → Nat → Option Nat
  | [], acc => some acc
  | c :: cs, acc =>
      if c.isDigit then decDigitsAux cs (acc * 10 + (c.toNat - 48)) else none

/-- Nonempty run of decimal digits. -/
def parseDecNat : List Char → Option Nat
  | [] => none
  | cs => decDigitsAux cs 0

/-- strconv.ParseInt with base 10 before the bit-size check: optional sign,
then a nonempty digit run; anything else is a syntax error. -/
def parseInt64 (s : String) : Option Int :=
  match s.data with
  | '+' :: cs => (parseDecNat cs).map Int.ofNat
  | '-' :: cs => (parseDecNat cs).map (fun n => -(Int.ofNat n))
  | cs => (parseDecNat cs).map Int.ofNat

/-- json.Number.Int64 with its error discarded, as the source does with
`exp, _ = expClaim.Int64()`: a syntax error yields the int64 zero value, an
out-of-range value is clamped to the int64 bound (strconv.ParseInt returns
the clamped value together with ErrRange). -/
def jsonNumberInt64 (s : String) : Int :=
  match parseInt64 s with
  | none => 0
  | some n =>
      if n < -(2 ^ 63) then -(2 ^ 63)
      else if n ≥ 2 ^ 63 then 2 ^ 63 - 1 else n

/-- Numeric claim extraction shared by the source's exp type switch
(src/server/bearer_auth.go lines 117 to 128) and jwt-go's MapClaims
verifiers (claims.go): a float64 is converted with int64(.), a json.Number
with Int64() discarding the error; any other dynamic type does not match. -/
def numClaim (claims : List (String × GoVal)) (key : String) : Option Int :=
  match alookup claims key with
  | some (.vFloat q) => some (floatToInt64 q)
  | some (.vNum s) => some (jsonNumberInt64 s)
  | _ => none

/-- The exp type switch of Check: none models the default branch. -/
def expFromClaims (claims : List (String × GoVal)) : Option Int :=
  numClaim claims "exp"

/-- jwt-go v3.2.0 MapClaims.VerifyExpiresAt(now, false): a missing or
non-numeric exp passes (required is false), a decoded 0 passes (verifyExp
treats 0 as absent), otherwise the token passes iff now is at most exp. -/
def verifyExpOk (claims : List (String × GoVal)) (now : Int) : Bool :=
  match numClaim claims "exp" with
  | none => true
  | some e => decide (e = 0 ∨ now ≤ e)

/-- jwt-go v3.2.0 MapClaims.VerifyIssuedAt(now, false). -/
def verifyIatOk (claims : List (String × GoVal)) (now : Int) : Bool :=
  match numClaim claims "iat" with
  | none => true
  | some v => decide (v = 0 ∨ v ≤ now)

/-- jwt-go v3.2.0 MapClaims.VerifyNotBefore(now, false). -/
def verifyNbfOk (claims : List (String × GoVal)) (now : Int) : Bool :=
  match numClaim claims "nbf" with
  | none => true
  | some v => decide (v = 0 ∨ v ≤ now)

/-- jwt-go v3.2.0 MapClaims.Valid(): the conjunction of the three claim
verifications, evaluated inside jwt.Parse after the key lookup and reported
to the caller of Parse as a non-nil error when false. -/
def mapClaimsValid (claims : List (String × GoVal)) (now : Int) : Bool :=
  verifyExpOk claims now && verifyIatOk claims now && verifyNbfOk claims now

/-- Modelled from the spec: the process-wide default maximum in-flight reply
count (DEFAULT_ALLOW_RESPONSE_MAX_MSGS, declared outside src/). -/
def DEFAULT_ALLOW_RESPONSE_MAX_MSGS : Int := 1

/-- Modelled from the spec: the process-wide default reply time-to-live
(DEFAULT_ALLOW_RESPONSE_EXPIRATION, declared outside src/), a time.Duration,
i.e. an int64 nanosecond count under JSON round-tripping. -/
def DEFAULT_ALLOW_RESPONSE_EXPIRATION : Int := 120000000000

/-- The value the source inserts for an absent publish or subscribe group:
a map with empty allow and deny lists (src/server/bearer_auth.go
lines 91 to 102, after the JSON round trip). -/
def emptySubjectVal : GoVal :=
  .vObj [("allow", .vArr []), ("deny", .vArr [])]

/-- The value the source inserts for an absent responses group: the
process-wide defaults (src/server/bearer_auth.go lines 103 to 108). -/
def defaultResponsesVal : GoVal :=
  .vObj [("max", .vFloat (DEFAULT_ALLOW_RESPONSE_MAX_MSGS : ℚ)),
         ("ttl", .vFloat (DEFAULT_ALLOW_RESPONSE_EXPIRATION : ℚ))]

/-- One if-absent-insert of the defaulting step: `if _, ok := m[k]; !ok
\x7b m[k] = v \x7d` - the presence test looks only at the key, not at the
value. -/
def defaultKey (pc : List (String × GoVal)) (k : String) (v : GoVal) :
    List (String × GoVal) :=
  if (alookup pc k).isSome then pc else aset pc k v

/-- The defaulting step of Check (src/server/bearer_auth.go lines 90 to 108):
each of the three group keys that is absent from the permissions claim is
inserted with its default value, in source order publish, subscribe,
responses; present keys are left untouched. -/
def defaultPermissionsClaim (pc : List (String × GoVal)) :
    List (String × GoVal) :=
  defaultKey
    (defaultKey (defaultKey pc "publish" emptySubjectVal)
      "subscribe" emptySubjectVal)
    "responses" defaultResponsesVal

/-- Modelled from the spec: one allow/deny rule group of the
PermissionsPolicy (the server's SubjectPermission struct is declared
outside src/). -/
structure SubjectPermission where
  allow : List String
  deny : List String
deriving DecidableEq, Repr

/-- Modelled from the spec: the responses quota group of the
PermissionsPolicy (the server's ResponsePermission struct is declared
outside src/). -/
structure ResponsePermission where
  max : Int
  ttl : Int
deriving DecidableEq, Repr

/-- Modelled from the spec: the PermissionsPolicy with its three rule
groups; following the spec's design notes, a group that the decoded policy
leaves unset (a nil pointer in the Go struct) is an explicit `none`. -/
structure Permissions where
  publish : Option SubjectPermission
  subscribe : Option SubjectPermission
  responses : Option ResponsePermission
deriving DecidableEq, Repr

/-- Decoding of a JSON value into a Go string slice, lenient the way the
ignored-error unmarshal is: non-string elements contribute nothing. -/
def decodeStringList : GoVal → List String
  | .vArr xs =>
      xs.filterMap (fun v => match v with | .vStr s => some s | _ => none)
  | _ => []

/-- Decoding of a JSON value into a Go int64 field: an integral number is
taken, anything else leaves the zero value (the unmarshal error is ignored). -/
def decodeNumber : GoVal → Int
  | .vFloat q => if q.den = 1 then q.num else 0
  | _ => 0

/-- Decoding of one group value into a pointer-typed SubjectPermission field
by encoding/json with the error ignored: JSON null leaves the pointer nil
(documented Unmarshal behaviour); any other present value allocates the
struct (Unmarshal dereferences through pointers before storing), with
ill-typed contents leaving zero-valued fields. -/
def decodeSubjectPermission : GoVal → Option SubjectPermission
  | .vNull => none
  | .vObj fs =>
      some { allow := decodeStringList ((alookup fs "allow").getD .vNull)
           , deny := decodeStringList ((alookup fs "deny").getD .vNull) }
  | _ => some { allow := [], deny := [] }

/-- Decoding of the responses group value, as for `decodeSubjectPermission`. -/
def decodeResponsePermission : GoVal → Option ResponsePermission
  | .vNull => none
  | .vObj fs =>
      some { max := decodeNumber ((alookup fs "max").getD .vNull)
           , ttl := decodeNumber ((alookup fs "ttl").getD .vNull) }
  | _ => some { max := 0, ttl := 0 }

/-- The json.Marshal/json.Unmarshal round trip of Check (src lines 109 to
110) from the defaulted permissions claim into the Permissions struct: a
group key absent from the map leaves its pointer field nil. -/
def decodePermissions (fs : List (String × GoVal)) : Permissions :=
  { publish := (alookup fs "publish").bind decodeSubjectPermission
  , subscribe := (alookup fs "subscribe").bind decodeSubjectPermission
  , responses := (alookup fs "responses").bind decodeResponsePermission }

/-- How one call of Check ends: the boolean it returns, or a panic that
escapes it. -/
inductive Outcome where
  | allowed
  | denied
  | panicked
deriving DecidableEq, Repr

/-- Observable result of one Check call: its outcome plus the connection
side effects (each RegisterUser call appends the registered identity's
policy, each setExpiration call appends the recorded deadline) and whether
the key store was consulted. -/
structure CheckResult where
  outcome : Outcome
  registered : List Permissions
  expirationsSet : List Int
  storeAccessed : Bool
deriving DecidableEq, Repr

/-- Shallow embedding of BearerAuth.Check (src/server/bearer_auth.go lines
52 to 144).  `parsed` is the structural parse of the bearer token (none
models a jwt-go ParseUnverified failure: bad framing, undecodable parts, or
an unregistered alg); `isClient` models the `c.(*client)` type test; `now`
models time.Now().Unix(), read once per attempt.  jwt.Parse runs the key
callback, then MapClaims.Valid(), then signature verification, and Check
returns false on any resulting error; with the default parser the claims
are always a MapClaims, so the claims type assertion of line 83 succeeds.
RegisterUser is called as soon as the policy is mapped, before the
client-only expiration handling. -/
def Check (jwks : List (String × RSAPublicKey)) (parsed : Option JwtToken)
    (isClient : Bool) (now : Int) : CheckResult :=
  match parsed with
  | none =>
      { outcome := .denied, registered := [], expirationsSet := []
      , storeAccessed := false }
  | some tok =>
    match keyFunc jwks tok with
    | (.panicked, acc) =>
        { outcome := .panicked, registered := [], expirationsSet := []
        , storeAccessed := acc }
    | (.err, acc) =>
        { outcome := .denied, registered := [], expirationsSet := []
        , storeAccessed := acc }
    | (.ok pk, acc) =>
      if mapClaimsValid tok.claims now = false then
        { outcome := .denied, registered := [], expirationsSet := []
        , storeAccessed := acc }
      else if tok.sigValid pk = false then
        { outcome := .denied, registered := [], expirationsSet := []
        , storeAccessed := acc }
      else
        match alookup tok.claims "permissions" with
        | some (.vObj pc) =>
          let perms := decodePermissions (defaultPermissionsClaim pc)
          if isClient then
            match expFromClaims tok.claims with
            | none =>
                { outcome := .denied, registered := [perms]
                , expirationsSet := [], storeAccessed := acc }
            | some e =>
              if now ≥ e then
                { outcome := .denied, registered := [perms]
                , expirationsSet := [], storeAccessed := acc }
              else
                { outcome := .allowed, registered := [perms]
                , expirationsSet := [e], storeAccessed := acc }
          else
            { outcome := .allowed, registered := [perms]
            , expirationsSet := [], storeAccessed := acc }
        | _ =>
            { outcome := .denied, registered := [], expirationsSet := []
            , storeAccessed := acc }

/-- How one call of readPublicKey ends. -/
inductive ReadKeyResult where
  | fatal
  | ok (jwks : List (String × RSAPublicKey)) (warned : Bool)
  | panicked (warned : Bool)
deriving DecidableEq, Repr

/-- Shallow embedding of BearerAuth.readPublicKey (src/server/bearer_auth.go
lines 33 to 49), starting from the empty key map of the constructor.
`parsed` models jwt.ParseRSAPublicKeyFromPEM on the normalized environment
PEM (none is a parse error, returned to the constructor, which makes broker
startup fail); `sshOk` models whether ssh.NewPublicKey succeeds on the
parsed key; `fpr` models ssh.FingerprintLegacyMD5 on the wrapped key.  When
ssh.NewPublicKey fails the source logs a warning and then still applies
ssh.FingerprintLegacyMD5 to the nil interface, whose Marshal call
dereferences nil: the run panics, indexing nothing and returning nothing. -/
def readPublicKey (parsed : Option RSAPublicKey) (sshOk : Bool)
    (fpr : RSAPublicKey → String) : ReadKeyResult :=
  match parsed with
  | none => .fatal
  | some pk =>
      if sshOk then .ok [(fpr pk, pk)] false
      else .panicked true

/-- A concrete verification key. -/
def pk1 : RSAPublicKey := { keyId := 1 }

/-- A concrete key store holding `pk1` under the fingerprint "fp1". -/
def jwks1 : List (String × RSAPublicKey) := [("fp1", pk1)]

/-- A signature primitive that accepts every key: the concrete tokens below
stand for correctly signed tokens. -/
def sigAlwaysValid : RSAPublicKey → Bool := fun _ => true

/-- A concrete fingerprint function for the readPublicKey scenarios. -/
def fprMD5 : RSAPublicKey → String := fun _ => "fp1"

/-- Header resolving to `pk1` in `jwks1`. -/
def hdrKid1 : List (String × GoVal) := [("kid", .vStr "fp1")]

/-- A correctly signed RSA token whose header carries no "kid" entry. -/
def tokNoKid : JwtToken :=
  { header := []
  , claims := [("permissions", .vObj [])]
  , methodIsRSA := true
  , sigValid := sigAlwaysValid }

/-- A correctly signed RSA token whose "kid" header entry is not a string. -/
def tokNumericKid : JwtToken :=
  { header := [("kid", .vFloat 7)]
  , claims := [("permissions", .vObj [])]
  , methodIsRSA := true
  , sigValid := sigAlwaysValid }

/-- A token declaring a non-RSA signing algorithm (e.g. HS256). -/
def tokNonRSA : JwtToken :=
  { header := hdrKid1
  , claims := [("permissions", .vObj [])]
  , methodIsRSA := false
  , sigValid := sigAlwaysValid }

/-- A verified token whose permissions claim maps publish to JSON null and
omits the other two groups. -/
def tokNullPublish : JwtToken :=
  { header := hdrKid1
  , claims := [("permissions", .vObj [("publish", .vNull)])]
  , methodIsRSA := true
  , sigValid := sigAlwaysValid }

/-- A verified token carrying a permissions claim and the expiration 0,
a past instant (the Unix epoch). -/
def tokExpZero : JwtToken :=
  { header := hdrKid1
  , claims := [("permissions", .vObj []), ("exp", .vFloat 0)]
  , methodIsRSA := true
  , sigValid := sigAlwaysValid }

/-- A verified token carrying a permissions claim and the past nonzero
expiration 50. -/
def tokExpPast : JwtToken :=
  { header := hdrKid1
  , claims := [("permissions", .vObj []), ("exp", .vFloat 50)]
  , methodIsRSA := true
  , sigValid := sigAlwaysValid }

/-- A verified token whose expiration is the future float instant 123. -/
def tokExpFloat123 : JwtToken :=
  { header := hdrKid1
  , claims := [("permissions", .vObj []), ("exp", .vFloat 123)]
  , methodIsRSA := true
  , sigValid := sigAlwaysValid }

/-- The same token with the same instant encoded as the decimal string
"123" (which JSON decoding delivers to the type switch as a Go string). -/
def tokExpStr123 : JwtToken :=
  { header := hdrKid1
  , claims := [("permissions", .vObj []), ("exp", .vStr "123")]
  , methodIsRSA := true
  , sigValid := sigAlwaysValid }

/-- The permissions claim of the spec's concrete scenario: only a publish
allow list. -/
def pcOrders : List (String × GoVal) :=
  [("publish", .vObj [("allow", .vArr [.vStr "orders.*"])])]

/-- The policy that scenario registers. -/
def policyOrders : Permissions :=
  { publish := some { allow := ["orders.*"], deny := [] }
  , subscribe := some { allow := [], deny := [] }
  , responses := some { max := DEFAULT_ALLOW_RESPONSE_MAX_MSGS
                      , ttl := DEFAULT_ALLOW_RESPONSE_EXPIRATION } }

/-- A verified token with that permissions claim and no expiration claim. -/
def tokNoExp : JwtToken :=
  { header := hdrKid1
  , claims := [("permissions", .vObj pcOrders)]
  , methodIsRSA := true
  , sigValid := sigAlwaysValid }

/-- A verified token with a permissions claim and a boolean expiration. -/
def tokBoolExp : JwtToken :=
  { header := hdrKid1
  , claims := [("permissions", .vObj []), ("exp", .vBool true)]
  , methodIsRSA := true
  , sigValid := sigAlwaysValid }

/-- A verified token with a permissions claim whose three groups are all
present, and a future expiration. -/
def tokComplete : JwtToken :=
  { header := hdrKid1
  , claims :=
      [("permissions", .vObj
          [("publish", .vObj [("allow", .vArr [.vStr "orders.*"])])
          , ("subscribe", .vObj [("deny", .vArr [.vStr "secret.>"])])
          , ("responses", .vObj [("max", .vFloat 5), ("ttl", .vFloat 1000)])])
      , ("exp", .vFloat 2000)]
  , methodIsRSA := true
  , sigValid := sigAlwaysValid }

theorem alookup_aset_self {α : Type} (l : List (String × α)) (k : String)
    (v : α) : alookup (aset l k v) k = some v := by
  induction l with
  | nil => simp [aset, alookup]
  | cons hd tl ih =>
      obtain ⟨k', w⟩ := hd
      by_cases h : k' = k <;> simp [aset, alookup, h, ih]

theorem alookup_aset_ne {α : Type} (l : List (String × α))
    (k key : String) (v : α) (h : k ≠ key) :
    alookup (aset l k v) key = alookup l key := by
  induction l with
  | nil => simp [aset, alookup, h]
  | cons hd tl ih =>
      obtain ⟨k', w⟩ := hd
      by_cases h2 : k' = k
      · subst h2; simp [aset, alookup, h]
      · simp [aset, alookup, h2, ih]

theorem alookup_defaultKey_self (pc : List (String × GoVal)) (k : String)
    (v : GoVal) :
    alookup (defaultKey pc k v) k = some ((alookup pc k).getD v) := by
  unfold defaultKey
  cases h : alookup pc k <;> simp [h, alookup_aset_self]

theorem alookup_defaultKey_ne (pc : List (String × GoVal)) (k : String)
    (v : GoVal) (key : String) (h : k ≠ key) :
    alookup (defaultKey pc k v) key = alookup pc key := by
  unfold defaultKey
  cases hh : alookup pc k <;> simp [hh, alookup_aset_ne _ _ _ _ h]

theorem defaultKey_of_present (pc : List (String × GoVal)) (k : String)
    (v : GoVal) (h : (alookup pc k).isSome = true) :
    defaultKey pc k v = pc := by
  unfold defaultKey; simp [h]

theorem alookup_default_publish (pc : List (String × GoVal)) :
    alookup (defaultPermissionsClaim pc) "publish"
      = some ((alookup pc "publish").getD emptySubjectVal) := by
  unfold defaultPermissionsClaim
  rw [alookup_defaultKey_ne _ _ _ _ (by decide),
    alookup_defaultKey_ne _ _ _ _ (by decide), alookup_defaultKey_self]

theorem alookup_default_subscribe (pc : List (String × GoVal)) :
    alookup (defaultPermissionsClaim pc) "subscribe"
      = some ((alookup pc "subscribe").getD emptySubjectVal) := by
  unfold defaultPermissionsClaim
  rw [alookup_defaultKey_ne _ _ _ _ (by decide), alookup_defaultKey_self,
    alookup_defaultKey_ne _ _ _ _ (by decide)]

theorem alookup_default_responses (pc : List (String × GoVal)) :
    alookup (defaultPermissionsClaim pc) "responses"
      = some ((alookup pc "responses").getD defaultResponsesVal) := by
  unfold defaultPermissionsClaim
  rw [alookup_defaultKey_self, alookup_defaultKey_ne _ _ _ _ (by decide),
    alookup_defaultKey_ne _ _ _ _ (by decide)]

theorem decodeSubjectPermission_isSome (v : GoVal) (h : v ≠ .vNull) :
    (decodeSubjectPermission v).isSome = true := by
  cases v <;> simp [decodeSubjectPermission] at h ⊢

theorem decodeResponsePermission_isSome (v : GoVal) (h : v ≠ .vNull) :
    (decodeResponsePermission v).isSome = true := by
  cases v <;> simp [decodeResponsePermission] at h ⊢

/-- Claim C1: a bearer token whose header lacks a string key identifier does
not make Check return false; instead the key-resolution callback
dereferences the nil kid pointer while formatting its error message, and
the panic escapes the Check boundary.  Evaluated at two concrete failing
inputs: a header with no "kid" entry and a header whose "kid" is numeric. -/
theorem check_missing_kid_panics :
    (Check jwks1 (some tokNoKid) true 1000).outcome = .panicked ∧
    (Check jwks1 (some tokNumericKid) true 1000).outcome = .panicked ∧
    (Check jwks1 (some tokNoKid) true 1000).storeAccessed = false := by
  refine ⟨rfl, rfl, rfl⟩

/-- Claim C3: a token declaring a signing algorithm outside the accepted RSA
family is denied, and the key store is never consulted for it - the
algorithm test precedes key resolution. -/
theorem check_non_rsa_alg_denied_without_key_lookup
    (jwks : List (String × RSAPublicKey)) (tok : JwtToken)
    (isClient : Bool) (now : Int) (h : tok.methodIsRSA = false) :
    (Check jwks (some tok) isClient now).outcome = .denied ∧
    (Check jwks (some tok) isClient now).storeAccessed = false := by
  simp [Check, keyFunc, h]

/-- Witness for C3 at the concrete token `tokNonRSA`. -/
theorem check_non_rsa_alg_denied_without_key_lookup_witness :
    (Check jwks1 (some tokNonRSA) true 1000).outcome = .denied ∧
    (Check jwks1 (some tokNonRSA) true 1000).storeAccessed = false :=
  check_non_rsa_alg_denied_without_key_lookup jwks1 tokNonRSA true 1000 rfl

/-- Claim C6, counterexample: when fingerprint computation fails for the
configured key, readPublicKey does not return successfully while skipping
the key - the run panics (the fingerprint routine is applied to the absent
wrapped key), so in particular it is not a success with an empty store. -/
theorem readPublicKey_fingerprint_failure_not_skipped :
    readPublicKey (some pk1) false fprMD5 = .panicked true ∧
    readPublicKey (some pk1) false fprMD5 ≠ .ok [] true := by
  refine ⟨rfl, by decide⟩

/-- Claim C6, amended: if fingerprint computation fails, the failure is
logged (warned is true) but readPublicKey does not return and does not
index the key: it panics applying the fingerprint routine to the absent
key. -/
theorem readPublicKey_fingerprint_failure_panics
    (pk : RSAPublicKey) (fpr : RSAPublicKey → String) :
    readPublicKey (some pk) false fpr = .panicked true := rfl

/-- Witness for the C6 amended theorem at a concrete key and fingerprint
function. -/
theorem readPublicKey_fingerprint_failure_panics_witness :
    readPublicKey (some pk1) false fprMD5 = .panicked true :=
  readPublicKey_fingerprint_failure_panics pk1 fprMD5

/-- Claim C9: defaulting is a no-op on a permissions claim that already
contains all three rule groups, so defaulting such a claim twice yields the
same output as defaulting it once. -/
theorem defaulting_idempotent_on_complete_claims
    (pc : List (String × GoVal))
    (hp : (alookup pc "publish").isSome = true)
    (hs : (alookup pc "subscribe").isSome = true)
    (hr : (alookup pc "responses").isSome = true) :
    defaultPermissionsClaim pc = pc ∧
    defaultPermissionsClaim (defaultPermissionsClaim pc)
      = defaultPermissionsClaim pc := by
  have h1 : defaultPermissionsClaim pc = pc := by
    unfold defaultPermissionsClaim
    rw [defaultKey_of_present _ _ _ hp, defaultKey_of_present _ _ _ hs,
      defaultKey_of_present _ _ _ hr]
  exact ⟨h1, by rw [h1]; exact h1⟩

/-- Witness for C9 at a concrete complete permissions claim. -/
theorem defaulting_idempotent_on_complete_claims_witness :
    defaultPermissionsClaim
        [("publish", GoVal.vObj []), ("subscribe", GoVal.vObj []),
         ("responses", GoVal.vObj [])]
      = [("publish", GoVal.vObj []), ("subscribe", GoVal.vObj []),
         ("responses", GoVal.vObj [])] ∧
    defaultPermissionsClaim (defaultPermissionsClaim
        [("publish", GoVal.vObj []), ("subscribe", GoVal.vObj []),
         ("responses", GoVal.vObj [])])
      = defaultPermissionsClaim
        [("publish", GoVal.vObj []), ("subscribe", GoVal.vObj []),
         ("responses", GoVal.vObj [])] :=
  defaulting_idempotent_on_complete_claims _ rfl rfl rfl

/-- Claim C7: a verified token whose claims payload has no permissions
sub-structure is denied even though signature verification succeeded, and
no identity is registered for the connection. -/
theorem check_no_permissions_claim_denied_unregistered
    (jwks : List (String × RSAPublicKey)) (tok : JwtToken)
    (isClient : Bool) (now : Int) (pk : RSAPublicKey) (acc : Bool)
    (hkf : keyFunc jwks tok = (.ok pk, acc))
    (hsig : tok.sigValid pk = true)
    (hperm : alookup tok.claims "permissions" = none) :
    (Check jwks (some tok) isClient now).outcome = .denied ∧
    (Check jwks (some tok) isClient now).registered = [] := by
  simp only [Check]
  rw [hkf]
  cases hv : mapClaimsValid tok.claims now <;> simp [hv, hsig, hperm]

/-- Witness for C7 at the concrete token `tokNonRSA` stripped of its claim:
a correctly signed RSA token with empty claims. -/
theorem check_no_permissions_claim_denied_unregistered_witness :
    (Check jwks1
        (some { header := hdrKid1, claims := [], methodIsRSA := true
              , sigValid := sigAlwaysValid }) true 1000).outcome = .denied ∧
    (Check jwks1
        (some { header := hdrKid1, claims := [], methodIsRSA := true
              , sigValid := sigAlwaysValid }) true 1000).registered = [] :=
  check_no_permissions_claim_denied_unregistered jwks1 _ true 1000 pk1 true
    rfl rfl rfl

/-- Claim C5, counterexample: the instant 123 encoded as a float expiration
is accepted, while the same instant encoded as the decimal string "123"
(which JSON decoding hands to the type switch as a Go string, not a
json.Number) is rejected: the two encodings do not produce the same
outcome, and the decimal-string encoding is not accepted.  The two tokens
are identical apart from the exp encoding; now is 100. -/
theorem check_float_and_string_exp_encodings_disagree :
    (Check jwks1 (some tokExpFloat123) true 100).outcome = .allowed ∧
    (Check jwks1 (some tokExpStr123) true 100).outcome = .denied := by
  refine ⟨rfl, rfl⟩

/-- Claim C5, amended: on a real network connection the expiration claim is
effectively accepted in one encoding only.  A string-typed exp never
matches the type switch (the json.Number branch requires a json.Number
dynamic value, which the default jwt-go parser never produces), so it is
handled as an unrecognized encoding; any unrecognized or missing exp makes
Check return false even though signature verification succeeded; and a
float-typed exp is decoded by int64 truncation. -/
theorem check_exp_only_float_encoding_accepted :
    (∀ (claims : List (String × GoVal)) (s : String),
      alookup claims "exp" = some (.vStr s) → expFromClaims claims = none)
    ∧ (∀ (claims : List (String × GoVal)) (q : ℚ),
        alookup claims "exp" = some (.vFloat q) →
        expFromClaims claims = some (floatToInt64 q))
    ∧ (∀ (jwks : List (String × RSAPublicKey)) (tok : JwtToken) (now : Int)
        (pk : RSAPublicKey) (acc : Bool),
        keyFunc jwks tok = (.ok pk, acc) → tok.sigValid pk = true →
        expFromClaims tok.claims = none →
        (Check jwks (some tok) true now).outcome = .denied) := by
  refine ⟨?_, ?_, ?_⟩
  · intro claims s h
    simp [expFromClaims, numClaim, h]
  · intro claims q h
    simp [expFromClaims, numClaim, h]
  · intro jwks tok now pk acc hkf hsig hexp
    simp only [Check]
    rw [hkf]
    cases hv : mapClaimsValid tok.claims now with
    | false => simp [hv]
    | true =>
      cases hpm : alookup tok.claims "permissions" with
      | none => simp [hv, hsig, hpm]
      | some v => cases v <;> simp [hv, hsig, hpm, hexp]

/-- Witness for the C5 amended theorem at concrete tokens: the string
encoding "123" decodes to none, the float encoding 123 decodes to
int64 123, and the concrete string-exp token is denied. -/
theorem check_exp_only_float_encoding_accepted_witness :
    expFromClaims tokExpStr123.claims = none ∧
    expFromClaims tokExpFloat123.claims = some (floatToInt64 123) ∧
    (Check jwks1 (some tokExpStr123) true 100).outcome = .denied :=
  ⟨check_exp_only_float_encoding_accepted.1 tokExpStr123.claims "123" rfl,
   check_exp_only_float_encoding_accepted.2.1 tokExpFloat123.claims 123 rfl,
   check_exp_only_float_encoding_accepted.2.2 jwks1 tokExpStr123 100 pk1
     true rfl rfl
     (check_exp_only_float_encoding_accepted.1 tokExpStr123.claims "123"
       rfl)⟩

/-- Claim C2, counterexample: a verified token whose permissions claim maps
publish to JSON null (and omits the other groups) is admitted with a
registered policy whose publish group is left null: defaulting only looks
at key presence, and the ignored unmarshal leaves the pointer nil for a
JSON null group. -/
theorem check_null_publish_group_registered_null :
    (Check jwks1 (some tokNullPublish) false 1000).registered
      = [{ publish := none
         , subscribe := some { allow := [], deny := [] }
         , responses := some { max := DEFAULT_ALLOW_RESPONSE_MAX_MSGS
                             , ttl := DEFAULT_ALLOW_RESPONSE_EXPIRATION } }]
    ∧ (Check jwks1 (some tokNullPublish) false 1000).outcome = .allowed := by
  refine ⟨rfl, rfl⟩

/-- Claim C2, amended: for every token whose verified claims contain a
permissions sub-structure in which no present rule group is JSON null,
every policy Check registers has all three groups present, an absent
publish or subscribe group becoming the explicit empty allow/deny pair and
an absent responses group becoming the process-wide default quota. -/
theorem check_registered_policy_fully_populated
    (jwks : List (String × RSAPublicKey)) (tok : JwtToken)
    (isClient : Bool) (now : Int) (pc : List (String × GoVal))
    (p : Permissions)
    (hperm : alookup tok.claims "permissions" = some (.vObj pc))
    (hpub : alookup pc "publish" ≠ some .vNull)
    (hsub : alookup pc "subscribe" ≠ some .vNull)
    (hresp : alookup pc "responses" ≠ some .vNull)
    (hreg : p ∈ (Check jwks (some tok) isClient now).registered) :
    (p.publish.isSome ∧ p.subscribe.isSome ∧ p.responses.isSome)
    ∧ (alookup pc "publish" = none → p.publish = some { allow := [], deny := [] })
    ∧ (alookup pc "subscribe" = none → p.subscribe = some { allow := [], deny := [] })
    ∧ (alookup pc "responses" = none →
        p.responses = some { max := DEFAULT_ALLOW_RESPONSE_MAX_MSGS
                           , ttl := DEFAULT_ALLOW_RESPONSE_EXPIRATION }) := by
  have hp : p = decodePermissions (defaultPermissionsClaim pc) := by
    simp only [Check] at hreg
    repeat' split at hreg
    all_goals simp_all
  have hpubval : (decodePermissions (defaultPermissionsClaim pc)).publish
      = decodeSubjectPermission ((alookup pc "publish").getD emptySubjectVal) := by
    simp [decodePermissions, alookup_default_publish]
  have hsubval : (decodePermissions (defaultPermissionsClaim pc)).subscribe
      = decodeSubjectPermission ((alookup pc "subscribe").getD emptySubjectVal) := by
    simp [decodePermissions, alookup_default_subscribe]
  have hrespval : (decodePermissions (defaultPermissionsClaim pc)).responses
      = decodeResponsePermission ((alookup pc "responses").getD defaultResponsesVal) := by
    simp [decodePermissions, alookup_default_responses]
  refine ⟨⟨?_, ?_, ?_⟩, ?_, ?_, ?_⟩
  · rw [hp, hpubval]
    cases h : alookup pc "publish" with
    | none => rfl
    | some v =>
      refine decodeSubjectPermission_isSome v ?_
      rintro rfl; exact hpub h
  · rw [hp, hsubval]
    cases h : alookup pc "subscribe" with
    | none => rfl
    | some v =>
      refine decodeSubjectPermission_isSome v ?_
      rintro rfl; exact hsub h
  · rw [hp, hrespval]
    cases h : alookup pc "responses" with
    | none => rfl
    | some v =>
      refine decodeResponsePermission_isSome v ?_
      rintro rfl; exact hresp h
  · intro h; rw [hp, hpubval, h]; rfl
  · intro h; rw [hp, hsubval, h]; rfl
  · intro h; rw [hp, hrespval, h]; rfl

/-- Witness for the C2 amended theorem at the spec's concrete scenario: a
permissions claim with only a publish allow list, whose registered policy
gets an empty publish deny list, an empty subscribe group, and the default
responses quota. -/
theorem check_registered_policy_fully_populated_witness :
    (policyOrders.publish.isSome ∧ policyOrders.subscribe.isSome ∧
      policyOrders.responses.isSome)
    ∧ (alookup pcOrders "publish" = none →
        policyOrders.publish = some { allow := [], deny := [] })
    ∧ (alookup pcOrders "subscribe" = none →
        policyOrders.subscribe = some { allow := [], deny := [] })
    ∧ (alookup pcOrders "responses" = none →
        policyOrders.responses
          = some { max := DEFAULT_ALLOW_RESPONSE_MAX_MSGS
                 , ttl := DEFAULT_ALLOW_RESPONSE_EXPIRATION }) :=
  check_registered_policy_fully_populated jwks1 tokNoExp false 100
    pcOrders policyOrders rfl
    (fun h => GoVal.noConfusion (Option.some.inj h))
    (fun h => Option.noConfusion h)
    (fun h => Option.noConfusion h)
    (by decide)

/-- Claim C4, counterexample: a real client presenting a verified token with
permissions and the past expiration 0 (the Unix epoch) is denied, but the
ephemeral identity has already been registered on the connection - the
registration side effect is not limited to successful attempts. -/
theorem check_zero_exp_registers_identity_before_denial :
    (Check jwks1 (some tokExpZero) true 1000).outcome = .denied ∧
    (Check jwks1 (some tokExpZero) true 1000).registered ≠ [] := by
  refine ⟨rfl, by decide⟩

/-- Claim C4, amended: a real client presenting a verified, policy-carrying
token whose expiration is in the past is denied.  When the decoded
expiration is nonzero, the parse-time claims validation of the jwt library
already fails, so no identity is registered; but when it decodes to exactly
0 (which that validation treats as an absent expiration), Check reaches the
registration step first, so the identity is registered before Check's own
expiration test denies. -/
theorem check_past_expiration_denied :
    (∀ (jwks : List (String × RSAPublicKey)) (tok : JwtToken)
       (now e : Int) (pk : RSAPublicKey) (acc : Bool),
       keyFunc jwks tok = (.ok pk, acc) → tok.sigValid pk = true →
       expFromClaims tok.claims = some e → e ≠ 0 → e < now →
       (Check jwks (some tok) true now).outcome = .denied ∧
       (Check jwks (some tok) true now).registered = [])
    ∧ (∀ (jwks : List (String × RSAPublicKey)) (tok : JwtToken) (now : Int)
       (pk : RSAPublicKey) (acc : Bool) (pc : List (String × GoVal)),
       keyFunc jwks tok = (.ok pk, acc) → tok.sigValid pk = true →
       alookup tok.claims "permissions" = some (.vObj pc) →
       expFromClaims tok.claims = some 0 → 0 < now →
       verifyIatOk tok.claims now = true → verifyNbfOk tok.claims now = true →
       (Check jwks (some tok) true now).outcome = .denied ∧
       (Check jwks (some tok) true now).registered
         = [decodePermissions (defaultPermissionsClaim pc)]) := by
  constructor
  · intro jwks tok now e pk acc hkf hsig hexp hne hlt
    have hvexp : verifyExpOk tok.claims now = false := by
      unfold verifyExpOk
      rw [show numClaim tok.claims "exp" = some e from hexp]
      show decide (e = 0 ∨ now ≤ e) = false
      rw [decide_eq_false_iff_not]
      omega
    have hmv : mapClaimsValid tok.claims now = false := by
      unfold mapClaimsValid
      rw [hvexp]
      rfl
    simp only [Check]
    rw [hkf]
    simp [hmv]
  · intro jwks tok now pk acc pc hkf hsig hperm hexp hpos hiat hnbf
    have hvexp : verifyExpOk tok.claims now = true := by
      unfold verifyExpOk
      rw [show numClaim tok.claims "exp" = some 0 from hexp]
      simp
    have hmv : mapClaimsValid tok.claims now = true := by
      unfold mapClaimsValid
      rw [hvexp, hiat, hnbf]
      rfl
    simp only [Check]
    rw [hkf]
    simp [hmv, hsig, hperm, expFromClaims] at hexp ⊢
    simp [hexp, show now ≥ (0 : Int) from le_of_lt hpos]

/-- Witness for the C4 amended theorem: the nonzero past expiration 50 at
now 100 is denied with nothing registered, and the zero expiration at now
1000 is denied with the identity registered. -/
theorem check_past_expiration_denied_witness :
    ((Check jwks1 (some tokExpPast) true 100).outcome = .denied ∧
      (Check jwks1 (some tokExpPast) true 100).registered = []) ∧
    ((Check jwks1 (some tokExpZero) true 1000).outcome = .denied ∧
      (Check jwks1 (some tokExpZero) true 1000).registered
        = [decodePermissions (defaultPermissionsClaim [])]) :=
  ⟨check_past_expiration_denied.1 jwks1 tokExpPast 100 50 pk1 true
      rfl rfl rfl (by decide) (by decide),
   check_past_expiration_denied.2 jwks1 tokExpZero 1000 pk1 true []
      rfl rfl rfl rfl (by decide) rfl rfl⟩

/-- Claim C8: on a real client, admission requires strictly now less than
exp: a verified, policy-carrying token whose decoded expiration is at or
before now is denied with no deadline recorded, and one whose expiration
is strictly in the future (with the other parse-time claim checks passing)
is admitted with the deadline recorded on the session state. -/
theorem check_strict_expiration_boundary :
    (∀ (jwks : List (String × RSAPublicKey)) (tok : JwtToken)
       (now e : Int) (pk : RSAPublicKey) (acc : Bool)
       (pc : List (String × GoVal)),
       keyFunc jwks tok = (.ok pk, acc) → tok.sigValid pk = true →
       alookup tok.claims "permissions" = some (.vObj pc) →
       expFromClaims tok.claims = some e → e ≤ now →
       (Check jwks (some tok) true now).outcome = .denied ∧
       (Check jwks (some tok) true now).expirationsSet = [])
    ∧ (∀ (jwks : List (String × RSAPublicKey)) (tok : JwtToken)
       (now e : Int) (pk : RSAPublicKey) (acc : Bool)
       (pc : List (String × GoVal)),
       keyFunc jwks tok = (.ok pk, acc) → tok.sigValid pk = true →
       alookup tok.claims "permissions" = some (.vObj pc) →
       expFromClaims tok.claims = some e → now < e →
       verifyIatOk tok.claims now = true → verifyNbfOk tok.claims now = true →
       (Check jwks (some tok) true now).outcome = .allowed ∧
       (Check jwks (some tok) true now).expirationsSet = [e]) := by
  constructor
  · intro jwks tok now e pk acc pc hkf hsig hperm hexp hle
    simp only [Check]
    rw [hkf]
    cases hv : mapClaimsValid tok.claims now with
    | false => simp [hv]
    | true =>
      simp [hv, hsig, hperm, expFromClaims] at hexp ⊢
      simp [hexp, show now ≥ e from hle]
  · intro jwks tok now e pk acc pc hkf hsig hperm hexp hlt hiat hnbf
    have hvexp : verifyExpOk tok.claims now = true := by
      unfold verifyExpOk
      rw [show numClaim tok.claims "exp" = some e from hexp]
      show decide (e = 0 ∨ now ≤ e) = true
      rw [decide_eq_true_eq]
      omega
    have hmv : mapClaimsValid tok.claims now = true := by
      unfold mapClaimsValid
      rw [hvexp, hiat, hnbf]
      rfl
    simp only [Check]
    rw [hkf]
    simp [hmv, hsig, hperm, expFromClaims] at hexp ⊢
    simp [hexp, show ¬(now ≥ e) from by omega]

/-- Witness for C8: the expiration 123 is denied at now 123 (the boundary
instant, nothing recorded) and admitted at now 100 with deadline 123
recorded. -/
theorem check_strict_expiration_boundary_witness :
    ((Check jwks1 (some tokExpFloat123) true 123).outcome = .denied ∧
      (Check jwks1 (some tokExpFloat123) true 123).expirationsSet = []) ∧
    ((Check jwks1 (some tokExpFloat123) true 100).outcome = .allowed ∧
      (Check jwks1 (some tokExpFloat123) true 100).expirationsSet = [123]) :=
  ⟨check_strict_expiration_boundary.1 jwks1 tokExpFloat123 123 123 pk1 true
      [] rfl rfl rfl rfl (by decide),
   check_strict_expiration_boundary.2 jwks1 tokExpFloat123 100 123 pk1 true
      [] rfl rfl rfl rfl (by decide) rfl rfl⟩

/-- Claim C10, counterexample: even for a connection that is not a real
network client, a verified token with a permissions claim and a past
(nonzero) expiration is not admitted and nothing is registered: the jwt
library's parse-time claims validation already rejects it, so expiration is
not entirely ignored for non-client connections. -/
theorem check_non_client_past_exp_still_denied :
    (Check jwks1 (some tokExpPast) false 100).outcome = .denied ∧
    (Check jwks1 (some tokExpPast) false 100).registered = [] := by
  refine ⟨rfl, rfl⟩

/-- Claim C10, amended: for a connection that is not a real network client,
Check itself performs no expiration processing - whenever the parse-time
claim checks pass (which they do for a missing or malformed, i.e.
non-numeric, expiration), a verified policy-carrying token is admitted with
the identity registered and no deadline recorded; but a well-formed nonzero
past expiration still leads to denial (at parse time), with no identity
registered. -/
theorem check_non_client_skips_expiration_processing :
    (∀ (jwks : List (String × RSAPublicKey)) (tok : JwtToken) (now : Int)
       (pk : RSAPublicKey) (acc : Bool) (pc : List (String × GoVal)),
       keyFunc jwks tok = (.ok pk, acc) → tok.sigValid pk = true →
       alookup tok.claims "permissions" = some (.vObj pc) →
       mapClaimsValid tok.claims now = true →
       (Check jwks (some tok) false now).outcome = .allowed ∧
       (Check jwks (some tok) false now).registered
         = [decodePermissions (defaultPermissionsClaim pc)] ∧
       (Check jwks (some tok) false now).expirationsSet = [])
    ∧ (∀ (claims : List (String × GoVal)) (now : Int),
        numClaim claims "exp" = none → verifyExpOk claims now = true)
    ∧ (∀ (jwks : List (String × RSAPublicKey)) (tok : JwtToken)
        (now e : Int) (pk : RSAPublicKey) (acc : Bool),
        keyFunc jwks tok = (.ok pk, acc) →
        expFromClaims tok.claims = some e → e ≠ 0 → e < now →
        (Check jwks (some tok) false now).outcome = .denied ∧
        (Check jwks (some tok) false now).registered = []) := by
  refine ⟨?_, ?_, ?_⟩
  · intro jwks tok now pk acc pc hkf hsig hperm hmv
    simp only [Check]
    rw [hkf]
    simp [hmv, hsig, hperm]
  · intro claims now h
    unfold verifyExpOk
    rw [h]
  · intro jwks tok now e pk acc hkf hexp hne hlt
    have hvexp : verifyExpOk tok.claims now = false := by
      unfold verifyExpOk
      rw [show numClaim tok.claims "exp" = some e from hexp]
      show decide (e = 0 ∨ now ≤ e) = false
      rw [decide_eq_false_iff_not]
      omega
    have hmv : mapClaimsValid tok.claims now = false := by
      unfold mapClaimsValid
      rw [hvexp]
      rfl
    simp only [Check]
    rw [hkf]
    simp [hmv]

/-- Witness for the C10 amended theorem: a non-client connection with a
boolean expiration claim is admitted with the identity registered and no
deadline set, its expiration decodes to none yet passes the parse-time
check, and the same claims with the past expiration 50 at now 100 are
denied with nothing registered. -/
theorem check_non_client_skips_expiration_processing_witness :
    ((Check jwks1 (some tokBoolExp) false 1000).outcome = .allowed ∧
      (Check jwks1 (some tokBoolExp) false 1000).registered
        = [decodePermissions (defaultPermissionsClaim [])] ∧
      (Check jwks1 (some tokBoolExp) false 1000).expirationsSet = []) ∧
    (verifyExpOk tokBoolExp.claims 1000 = true) ∧
    ((Check jwks1 (some tokExpPast) false 100).outcome = .denied ∧
      (Check jwks1 (some tokExpPast) false 100).registered = []) :=
  ⟨check_non_client_skips_expiration_processing.1 jwks1 tokBoolExp 1000 pk1
      true [] rfl rfl rfl rfl,
   check_non_client_skips_expiration_processing.2.1 tokBoolExp.claims 1000
      rfl,
   check_non_client_skips_expiration_processing.2.2 jwks1 tokExpPast 100 50
      pk1 true rfl rfl (by decide) (by decide)⟩

end BearerAuthSpec
